import Mathlib

/-!
Verification of `src/packages/lib/core/src/agent/request.ts`
(ChatGPT-Telegram-Workers core request module).

Strings are modelled as `List Char` (`String.data`); JS `string` values
that may be `null`/`undefined` become `Option (List Char)`, with the JS
truthiness test `!s` holding for both `none` and `some []` (empty string).
-/

namespace Request

/-- `"<think>".data` — the short opening tag matched by `<think(?:ing)?>`. -/
def tagOpenThink : List Char := "<think>".data

/-- `"<thinking>".data` — the long opening tag matched by `<think(?:ing)?>`. -/
def tagOpenThinking : List Char := "<thinking>".data

/-- `"</think>".data` — the short closing tag matched by `<\/think(?:ing)?>`. -/
def tagCloseThink : List Char := "</think>".data

/-- `"</thinking>".data` — the long closing tag matched by `<\/think(?:ing)?>`. -/
def tagCloseThinking : List Char := "</thinking>".data

/-- Try to match the opening-tag alternation `<think(?:ing)?>` at the head of
`l`; on success return the remainder after the tag.  (`<think>` and
`<thinking>` can never both match at one position: the 7th character is `>`
versus `i`.) -/
def dropOpenTag (l : List Char) : Option (List Char) :=
  if tagOpenThink.isPrefixOf l then some (l.drop 7)
  else if tagOpenThinking.isPrefixOf l then some (l.drop 10)
  else none

/-- Try to match the closing-tag alternation `<\/think(?:ing)?>` at the head
of `l`; on success return the remainder after the tag. -/
def dropCloseTag (l : List Char) : Option (List Char) :=
  if tagCloseThink.isPrefixOf l then some (l.drop 8)
  else if tagCloseThinking.isPrefixOf l then some (l.drop 11)
  else none

/-- Lazy search (`[\s\S]*?`) for the first closing tag in `l`; returns the
remainder after that closing tag, or `none` when no closing tag occurs. -/
def findClose : List Char → Option (List Char)
  | [] => none
  | c :: cs =>
    match dropCloseTag (c :: cs) with
    | some rest => some rest
    | none => findClose cs

/-- One global-replace pass of
`text.replace(/<think(?:ing)?>[\s\S]*?<\/think(?:ing)?>/g, '')`:
left-to-right scan; at each position, if an opening tag matches and a closing
tag occurs later, drop the whole span and resume after it, otherwise keep the
character.  `fuel` bounds the recursion; `fuel = l.length` always suffices
because every step strictly shortens the list. -/
def removeClosedSpansFuel : Nat → List Char → List Char
  | 0, l => l
  | _ + 1, [] => []
  | n + 1, c :: cs =>
    match dropOpenTag (c :: cs) with
    | some rest =>
      match findClose rest with
      | some after => removeClosedSpansFuel n after
      | none => c :: removeClosedSpansFuel n cs
    | none => c :: removeClosedSpansFuel n cs

/-- The closed-span removal step of `stripThinkingContent` (line 7 of the
source). -/
def removeClosedSpans (l : List Char) : List Char :=
  removeClosedSpansFuel l.length l

/-- `text.substring(0, match.index)` for the first match of
`/<think(?:ing)?>/` — everything strictly before the first opening tag;
identity when no opening tag remains (lines 9–12 of the source). -/
def truncateUnclosed : List Char → List Char
  | [] => []
  | c :: cs =>
    if (dropOpenTag (c :: cs)).isSome then []
    else c :: truncateUnclosed cs

/-- `text.trimStart()` — strip leading whitespace only. -/
def trimLeft : List Char → List Char
  | [] => []
  | c :: cs => if c.isWhitespace then trimLeft cs else c :: cs

/-- `stripThinkingContent` (source lines 5–14): remove closed
`<think…>…</think…>` spans, truncate at a remaining opening tag, then
left-trim. -/
def stripThinkingContentL (l : List Char) : List Char :=
  trimLeft (truncateUnclosed (removeClosedSpans l))

/-- `stripThinkingContent` on `String`. -/
def stripThinkingContent (s : String) : String :=
  ⟨stripThinkingContentL s.data⟩

/-- `true` iff the list does not start with a whitespace character. -/
def noLeadingWs : List Char → Bool
  | [] => true
  | c :: _ => !c.isWhitespace

/-- `true` iff an opening tag `<think>`/`<thinking>` matches at some
position of the list. -/
def hasOpenTag : List Char → Bool
  | [] => false
  | c :: cs => (dropOpenTag (c :: cs)).isSome || hasOpenTag cs

/-- `"\n..."` — appended to each partial snapshot handed to `onStream`. -/
def ellipsisChars : List Char := "\n...".data

/-- `"\nError: "` — the marker prepended to a mid-stream failure message. -/
def errorMarkChars : List Char := "\nError: ".data

/-- The mutable locals of `streamHandler` (source lines 57–61), plus the
record of sink invocations (`onStream` calls) made so far, oldest first. -/
structure StreamState where
  contentFull : List Char
  lengthDelta : Nat
  updateStep : Nat
  lastUpdateTime : Nat
  lastStreamText : List Char
  flushes : List (List Char)
  deriving DecidableEq, Repr

/-- Initial state of `streamHandler`; `t0` is `Date.now()` at entry. -/
def streamInit (t0 : Nat) : StreamState :=
  { contentFull := [], lengthDelta := 0, updateStep := 50,
    lastUpdateTime := t0, lastStreamText := [], flushes := [] }

/-- The text a frame contributes to `contentFull` (`none` and the empty
string are both falsy in JS, so both contribute nothing). -/
def extractedText : Option (List Char) → List Char
  | none => []
  | some t => t

/-- One iteration of the `for await` loop of `streamHandler` (source lines
63–85) on the already-extracted `textPart`; `now` is `Date.now()` at this
iteration; `minInterval` is `ENV.TELEGRAM_MIN_STREAM_INTERVAL`. -/
def streamStep (minInterval : Nat) (st : StreamState)
    (textPart? : Option (List Char)) (now : Nat) : StreamState :=
  match textPart? with
  | none => st
  | some [] => st
  | some textPart =>
    let lengthDelta := st.lengthDelta + textPart.length
    let contentFull := st.contentFull ++ textPart
    if st.updateStep < lengthDelta then
      if 0 < minInterval ∧ now - st.lastUpdateTime < minInterval then
        { st with contentFull := contentFull, lengthDelta := lengthDelta }
      else
        let lastUpdateTime := if 0 < minInterval then now else st.lastUpdateTime
        let displayText := stripThinkingContentL contentFull
        if displayText ≠ [] ∧ displayText ≠ st.lastStreamText then
          { contentFull := contentFull, lengthDelta := 0,
            updateStep := st.updateStep + 20, lastUpdateTime := lastUpdateTime,
            lastStreamText := displayText,
            flushes := st.flushes ++ [displayText ++ ellipsisChars] }
        else
          { st with contentFull := contentFull, lengthDelta := 0,
                    updateStep := st.updateStep + 20,
                    lastUpdateTime := lastUpdateTime }
    else
      { st with contentFull := contentFull, lengthDelta := lengthDelta }

/-- Run the `for await` loop over a list of (extracted text, time) pairs. -/
def streamRun (minInterval : Nat) :
    StreamState → List (Option (List Char) × Nat) → StreamState
  | st, [] => st
  | st, p :: rest => streamRun minInterval (streamStep minInterval st p.1 p.2) rest

/-- `streamHandler` (source lines 56–91): consume the frames (each paired
with the `Date.now()` value at its iteration), then—if the iteration raised
`err`—append `"\nError: <message>"`; return the sanitized accumulated text
together with the list of sink invocations. -/
def streamHandlerL {α : Type} (extract : α → Option (List Char))
    (minInterval t0 : Nat) (frames : List (α × Nat))
    (err : Option (List Char)) : List Char × List (List Char) :=
  let st := streamRun minInterval (streamInit t0)
    (frames.map (fun p => (extract p.1, p.2)))
  match err with
  | some msg =>
    (stripThinkingContentL (st.contentFull ++ errorMarkChars ++ msg), st.flushes)
  | none => (stripThinkingContentL st.contentFull, st.flushes)

/-- A parsed JSON value, as produced by `resp.json()` or the stream-frame
decoder. -/
inductive Json where
  | null : Json
  | bool : Bool → Json
  | num : Int → Json
  | str : List Char → Json
  | arr : List Json → Json
  | obj : List (List Char × Json) → Json

/-- JS property access `v[k]` on a parsed JSON value: `none` means the
access yields `undefined` (missing key, or a non-object receiver). -/
def jGet : Json → List Char → Option Json
  | .obj fields, k => (fields.find? (fun f : List Char × Json => f.1 == k)).map Prod.snd
  | _, _ => none

/-- `true` iff the value is JSON `null` (together with an absent key, the
nullish values that `?.` short-circuits on). -/
def jNullish : Json → Bool
  | .null => true
  | _ => false

/-- JS truthiness of a parsed JSON value (`!result` in the source). -/
def jFalsy : Json → Bool
  | .null => true
  | .bool b => !b
  | .num n => n == 0
  | .str s => s.isEmpty
  | _ => false

/-- The value if it is a JSON string, else `none` — a property whose value
is not a string is returned by the extractors as a non-text value and then
treated as absent by every consumer in this module. -/
def jStr? : Option Json → Option (List Char)
  | some (.str s) => some s
  | _ => none

/-- Default delta extractor `(d) => d?.choices?.at(0)?.delta?.content`
(source lines 27–29).  Every step is guarded by optional chaining, so the
extractor yields text or absent on any frame whose `choices` is an array or
missing (spec 4.3: "absent on malformed frames"); frames whose `choices` is
a primitive, on which JS itself would fail, are outside this model. -/
def defaultContentExtractor (d : Json) : Option (List Char) :=
  match jGet d "choices".data with
  | some (.arr (c :: _)) =>
    match jGet c "delta".data with
    | some dl => jStr? (jGet dl "content".data)
    | none => none
  | _ => none

/-- Default full-content extractor
`(d) => d.choices?.at(0)?.message.content` (source lines 31–33).  The
access `.content` is not guarded by optional chaining, so it raises a
`TypeError` (`.error ()`) exactly when a first choice exists (and is not
short-circuited away) but its `message` field is nullish; when `choices`
itself is absent, nullish, or empty, the chain short-circuits to
`undefined` (`.ok none`) without failing. -/
def defaultFullContentExtractor (d : Json) : Except Unit (Option (List Char)) :=
  match jGet d "choices".data with
  | none | some .null => .ok none
  | some (.arr []) => .ok none
  | some (.arr (c :: _)) =>
    if jNullish c then .ok none
    else
      match jGet c "message".data with
      | none | some .null => .error ()
      | some m => .ok (jStr? (jGet m "content".data))
  | some (.str s) => if s.isEmpty then .ok none else .error ()
  | some _ => .error ()

/-- Default error extractor `(d) => d.error?.message` (source lines 34–36);
total on any non-nullish body, which the call site guarantees. -/
def defaultErrorExtractor (d : Json) : Option (List Char) :=
  match jGet d "error".data with
  | some e => jStr? (jGet e "message".data)
  | none => none

/-- The frames a `Stream` wrapper delivers for a response body, each paired
with the `Date.now()` value at its loop iteration, plus the failure (if
any) that ends the iteration. -/
structure StreamData where
  frames : List (Json × Nat)
  failure : Option (List Char)

/-- `HttpResponse`: the parts of a fetch `Response` that this module reads.
`jsonBody` is the value `resp.json()` resolves to (bodies that make
`resp.json()` reject are outside this model; that rejection would propagate
untouched). -/
structure HttpResponse where
  ok : Bool
  contentType? : Option (List Char)
  statusText : List Char
  jsonBody : Json
  streamData : StreamData

/-- `haystack.includes(needle)` on already-lowercased text. -/
def containsSeq : List Char → List Char → Bool
  | [], pat => pat.isEmpty
  | c :: cs, pat => pat.isPrefixOf (c :: cs) || containsSeq cs pat

/-- `toLowerCase()`. -/
def toLowerL (l : List Char) : List Char := l.map Char.toLower

/-- `isJsonResponse` (source lines 40–43): the content-type header value,
lowercased, contains `application/json`; an absent header gives `false`
(`?? false`). -/
def isJsonResponse (resp : HttpResponse) : Bool :=
  match resp.contentType? with
  | none => false
  | some ct => containsSeq (toLowerL ct) "application/json".data

/-- `isEventStreamResponse` (source lines 45–54): the content-type header
value, lowercased (absent header ⇒ `''`), contains
`application/stream+json` or `text/event-stream`. -/
def isEventStreamResponse (resp : HttpResponse) : Bool :=
  let content := match resp.contentType? with
    | none => []
    | some ct => toLowerL ct
  containsSeq content "application/stream+json".data
    || containsSeq content "text/event-stream".data

/-- Default stream builder `(r, c) => new Stream(r, c)` (source lines
24–26): wrap the response body in the frame decoder; the constructor always
yields a stream object, never `null`. -/
def defaultStreamBuilder (r : HttpResponse) : Option StreamData :=
  some r.streamData

/-- `SseChatCompatibleOptions` (source lines 16–21): the four optional
configuration functions. -/
structure SseChatCompatibleOptions where
  streamBuilder : Option (HttpResponse → Option StreamData)
  contentExtractor : Option (Json → Option (List Char))
  fullContentExtractor : Option (Json → Except Unit (Option (List Char)))
  errorExtractor : Option (Json → Option (List Char))

/-- `fixOpenAICompatibleOptions` (source lines 23–38): `options || {}`,
then give each absent function its OpenAI-compatible default. -/
def fixOpenAICompatibleOptions (options : Option SseChatCompatibleOptions) :
    SseChatCompatibleOptions :=
  let o := options.getD ⟨none, none, none, none⟩
  { streamBuilder := some (o.streamBuilder.getD defaultStreamBuilder),
    contentExtractor := some (o.contentExtractor.getD defaultContentExtractor),
    fullContentExtractor := some (o.fullContentExtractor.getD defaultFullContentExtractor),
    errorExtractor := some (o.errorExtractor.getD defaultErrorExtractor) }

/-- The ways `mapResponseToAnswer` can fail: an `Error` it throws itself
(carrying a message), or a `TypeError` escaping from the full-content
extractor. -/
inductive MapError where
  | requestError (msg : List Char)
  | extractorTypeError
  deriving DecidableEq

/-- `mapResponseToAnswer` (source lines 93–115), returning the thrown error
or the answer, together with the list of `onStream` sink invocations.
`hasOnStream` says whether a sink was supplied; `minInterval` and `t0` feed
the stream consumer as in `streamHandlerL`.  After
`fixOpenAICompatibleOptions` every field of `opts` is populated, so each
`.getD` here just unwraps it (mirroring `options.contentExtractor!` and
`options.streamBuilder?.`). -/
def mapResponseToAnswer (resp : HttpResponse)
    (options : Option SseChatCompatibleOptions) (hasOnStream : Bool)
    (minInterval t0 : Nat) : Except MapError (List Char) × List (List Char) :=
  let opts := fixOpenAICompatibleOptions options
  if hasOnStream && resp.ok && isEventStreamResponse resp then
    match (opts.streamBuilder.getD defaultStreamBuilder) resp with
    | none => (.error (.requestError "Stream builder error".data), [])
    | some sd =>
      let r := streamHandlerL (opts.contentExtractor.getD defaultContentExtractor)
        minInterval t0 sd.frames sd.failure
      (.ok r.1, r.2)
  else if !(isJsonResponse resp) then
    (.error (.requestError resp.statusText), [])
  else
    let result := resp.jsonBody
    if jFalsy result then
      (.error (.requestError "Empty response".data), [])
    else
      match (opts.errorExtractor.getD defaultErrorExtractor) result with
      | some m =>
        if !m.isEmpty then
          (.error (.requestError (if m.isEmpty then "Unknown error".data else m)), [])
        else
          match (opts.fullContentExtractor.getD defaultFullContentExtractor) result with
          | .error _ => (.error .extractorTypeError, [])
          | .ok v => (.ok (stripThinkingContentL (extractedText v)), [])
      | none =>
        match (opts.fullContentExtractor.getD defaultFullContentExtractor) result with
        | .error _ => (.error .extractorTypeError, [])
        | .ok v => (.ok (stripThinkingContentL (extractedText v)), [])

/-- The externally visible effects of one `requestChatCompletions` call, in
program order. -/
inductive OrchEvent where
  | scheduleTimer
  | fetchStart
  | clearTimer
  | propagateError
  | mapResponse
  deriving DecidableEq

/-- Control flow of `requestChatCompletions` (source lines 117–137) as the
list of effects it performs, given whether `ENV.CHAT_COMPLETE_API_TIMEOUT`
is positive (`timeoutPositive`, which decides whether
`setTimeout(() => controller.abort(), …)` is scheduled) and whether the
`fetch` promise rejects.  A rejected `await fetch` raises out of the
function before the `if (timeoutID) { clearTimeout(timeoutID); }` statement
is reached; on resolution that statement runs and then the result is handed
to `mapResponseToAnswer`. -/
def requestChatCompletionsTrace (timeoutPositive fetchRejects : Bool) :
    List OrchEvent :=
  (if timeoutPositive then [OrchEvent.scheduleTimer] else [])
    ++ [OrchEvent.fetchStart]
    ++ (if fetchRejects then [OrchEvent.propagateError]
        else (if timeoutPositive then [OrchEvent.clearTimer] else [])
          ++ [OrchEvent.mapResponse])

lemma truncateUnclosed_isPre (l : List Char) : truncateUnclosed l <+: l := by
  induction l with
  | nil => simp [truncateUnclosed]
  | cons c cs ih =>
    by_cases h : (dropOpenTag (c :: cs)).isSome
    · simp [truncateUnclosed, h]
    · simp only [truncateUnclosed, h, if_false, Bool.false_eq_true]
      obtain ⟨t, ht⟩ := ih
      exact ⟨t, by simp [ht]⟩

lemma dropOpenTag_eq_none_iff {l : List Char} :
    dropOpenTag l = none ↔ ¬ tagOpenThink <+: l ∧ ¬ tagOpenThinking <+: l := by
  unfold dropOpenTag
  by_cases h1 : tagOpenThink.isPrefixOf l <;> by_cases h2 : tagOpenThinking.isPrefixOf l <;>
    simp_all [ List.isPrefixOf_iff_prefix]

lemma dropOpenTag_mono {l₁ l₂ : List Char} (pre : l₁ <+: l₂)
    (h : dropOpenTag l₂ = none) : dropOpenTag l₁ = none := by
  rw [dropOpenTag_eq_none_iff] at h ⊢
  exact ⟨fun hp => h.1 (hp.trans pre), fun hp => h.2 (hp.trans pre)⟩

lemma hasOpenTag_truncateUnclosed (l : List Char) :
    hasOpenTag (truncateUnclosed l) = false := by
  induction l with
  | nil => rfl
  | cons c cs ih =>
    by_cases h : (dropOpenTag (c :: cs)).isSome
    · simp [truncateUnclosed, h, hasOpenTag]
    · have hn : dropOpenTag (c :: cs) = none := Option.not_isSome_iff_eq_none.mp (by simp [h])
      have pre : c :: truncateUnclosed cs <+: c :: cs := by
        obtain ⟨t, ht⟩ := truncateUnclosed_isPre cs
        exact ⟨t, by simp [ht]⟩
      have hd : dropOpenTag (c :: truncateUnclosed cs) = none := dropOpenTag_mono pre hn
      simp [truncateUnclosed, h, hasOpenTag, hd, ih]

lemma hasOpenTag_trimLeft {l : List Char} (h : hasOpenTag l = false) :
    hasOpenTag (trimLeft l) = false := by
  induction l with
  | nil => exact h
  | cons c cs ih =>
    rw [hasOpenTag] at h
    simp only [Bool.or_eq_false_iff] at h
    by_cases hw : c.isWhitespace
    · simpa [trimLeft, hw] using ih h.2
    · simpa [trimLeft, hw, hasOpenTag] using h

lemma removeClosedSpansFuel_of_noTag {l : List Char} (h : hasOpenTag l = false) :
    ∀ n, removeClosedSpansFuel n l = l := by
  intro n
  induction n generalizing l with
  | zero => rfl
  | succ n ih =>
    cases l with
    | nil => rfl
    | cons c cs =>
      rw [hasOpenTag] at h
      simp only [Bool.or_eq_false_iff] at h
      have hn : dropOpenTag (c :: cs) = none := Option.not_isSome_iff_eq_none.mp (by simp [h.1])
      simp [removeClosedSpansFuel, hn, ih h.2]

lemma truncateUnclosed_of_noTag {l : List Char} (h : hasOpenTag l = false) :
    truncateUnclosed l = l := by
  induction l with
  | nil => rfl
  | cons c cs ih =>
    rw [hasOpenTag] at h
    simp only [Bool.or_eq_false_iff] at h
    simp [truncateUnclosed, h.1, ih h.2]

lemma trimLeft_idem (l : List Char) : trimLeft (trimLeft l) = trimLeft l := by
  induction l with
  | nil => rfl
  | cons c cs ih =>
    by_cases hw : c.isWhitespace
    · simp [trimLeft, hw, ih]
    · simp [trimLeft, hw]

lemma noLeadingWs_trimLeft (l : List Char) : noLeadingWs (trimLeft l) = true := by
  induction l with
  | nil => rfl
  | cons c cs ih =>
    by_cases hw : c.isWhitespace
    · simpa [trimLeft, hw] using ih
    · simp [trimLeft, hw, noLeadingWs]

lemma hasOpenTag_stripL (l : List Char) :
    hasOpenTag (stripThinkingContentL l) = false :=
  hasOpenTag_trimLeft (hasOpenTag_truncateUnclosed _)

lemma stripL_idem (l : List Char) :
    stripThinkingContentL (stripThinkingContentL l) = stripThinkingContentL l := by
  have hTag : hasOpenTag (stripThinkingContentL l) = false := hasOpenTag_stripL l
  show trimLeft (truncateUnclosed (removeClosedSpans (stripThinkingContentL l)))
      = stripThinkingContentL l
  rw [show removeClosedSpans (stripThinkingContentL l) = stripThinkingContentL l from
        removeClosedSpansFuel_of_noTag hTag _,
      truncateUnclosed_of_noTag hTag]
  exact trimLeft_idem _

lemma streamStep_contentFull (minI : Nat) (st : StreamState)
    (f : Option (List Char)) (now : Nat) :
    (streamStep minI st f now).contentFull = st.contentFull ++ extractedText f := by
  match f with
  | none => simp [streamStep, extractedText]
  | some [] => simp [streamStep, extractedText]
  | some (c :: cs) =>
    simp only [streamStep, extractedText]
    split
    · split
      · rfl
      · split
        · rfl
        · rfl
    · rfl

lemma streamRun_contentFull (minI : Nat)
    (frames : List (Option (List Char) × Nat)) :
    ∀ st : StreamState, (streamRun minI st frames).contentFull
      = st.contentFull ++ (frames.map (fun p => extractedText p.1)).flatten := by
  induction frames with
  | nil => intro st; simp [streamRun]
  | cons f rest ih =>
    intro st
    simp [streamRun, ih, streamStep_contentFull, List.append_assoc]

end Request

/-- C1: `stripThinkingContent` removes every well-formed think-span
(non-greedy, repeatable), truncates at a remaining unclosed opening tag,
and strips leading whitespace only, preserving trailing and internal
whitespace; in particular `"a<think>secret</think>b" ↦ "ab"` and
`"visible<think>hidden" ↦ "visible"`. -/
theorem Request.stripThinkingContent_sanitizes :
    Request.stripThinkingContent "a<think>secret</think>b" = "ab"
    ∧ Request.stripThinkingContent "visible<think>hidden" = "visible"
    ∧ Request.stripThinkingContent "a<think>s</think>b<thinking>t</thinking>c" = "abc"
    ∧ Request.stripThinkingContent "<think>a</think>b<thinking>c" = "b"
    ∧ Request.stripThinkingContent "  x" = "x"
    ∧ Request.stripThinkingContent "x  " = "x  "
    ∧ Request.stripThinkingContent "a<think>x</think>y</think>b" = "ay</think>b"
    ∧ Request.stripThinkingContent "a<THINK>x</THINK>b" = "a<THINK>x</THINK>b"
    ∧ ∀ t : String, Request.noLeadingWs (Request.stripThinkingContent t).data = true :=
  ⟨by decide, by decide, by decide, by decide, by decide, by decide, by decide, by decide,
   fun _ => Request.noLeadingWs_trimLeft _⟩

/-- C9: `stripThinkingContent` is idempotent; its output never contains an
opening `<think>`/`<thinking>` tag and never starts with whitespace. -/
theorem Request.stripThinkingContent_idem :
    ∀ t : String,
      Request.stripThinkingContent (Request.stripThinkingContent t)
        = Request.stripThinkingContent t
      ∧ Request.hasOpenTag (Request.stripThinkingContent t).data = false
      ∧ Request.noLeadingWs (Request.stripThinkingContent t).data = true := by
  intro t
  refine ⟨?_, Request.hasOpenTag_stripL t.data, Request.noLeadingWs_trimLeft _⟩
  show (⟨Request.stripThinkingContentL (Request.stripThinkingContentL t.data)⟩ : String)
      = ⟨Request.stripThinkingContentL t.data⟩
  rw [Request.stripL_idem]

/-- C2: the flush threshold starts at 50 and grows by 20 after every flush;
a flush is attempted only when the accumulated delta exceeds the threshold;
with time-based throttling disabled, 10 frames of 10 characters each invoke
the sink exactly once, with the sanitized accumulated text plus `"\n..."`. -/
theorem Request.streamHandler_throttle :
    (∀ t0 : Nat, (Request.streamInit t0).updateStep = 50)
    ∧ (Request.streamHandlerL id 0 0
        (List.replicate 10 (some (List.replicate 10 'a'), (0 : Nat))) none).2
        = [List.replicate 60 'a' ++ Request.ellipsisChars]
    ∧ (∀ (st : Request.StreamState) (text : List Char) (now : Nat),
        text ≠ [] → st.lengthDelta + text.length ≤ st.updateStep →
        Request.streamStep 0 st (some text) now
          = { st with contentFull := st.contentFull ++ text,
                      lengthDelta := st.lengthDelta + text.length })
    ∧ (∀ (st : Request.StreamState) (text : List Char) (now : Nat),
        text ≠ [] → st.updateStep < st.lengthDelta + text.length →
        (Request.streamStep 0 st (some text) now).updateStep = st.updateStep + 20
        ∧ (Request.streamStep 0 st (some text) now).lengthDelta = 0) := by
  refine ⟨fun _ => rfl, by decide, ?_, ?_⟩
  · intro st text now htext hle
    match text, htext with
    | c :: cs, _ =>
      simp only [Request.streamStep]
      rw [if_neg (by simpa using Nat.not_lt.mpr hle)]
  · intro st text now htext hgt
    match text, htext with
    | c :: cs, _ =>
      simp only [Request.streamStep]
      rw [if_pos (by simpa using hgt), if_neg (by simp)]
      split <;> exact ⟨rfl, rfl⟩

/-- Witness for C2 at concrete inputs. -/
theorem Request.streamHandler_throttle_witness :
    Request.streamStep 0 (Request.streamInit 0) (some ['a']) 0
      = { Request.streamInit 0 with contentFull := ['a'], lengthDelta := 1 }
    ∧ (Request.streamStep 0
        { Request.streamInit 0 with lengthDelta := 50 } (some ['b']) 0).updateStep = 70 :=
  ⟨Request.streamHandler_throttle.2.2.1 (Request.streamInit 0) ['a'] 0
      (by decide) (by decide),
   (Request.streamHandler_throttle.2.2.2
      { Request.streamInit 0 with lengthDelta := 50 } ['b'] 0
      (by decide) (by decide)).1⟩

/-- C5: when the frame sequence fails mid-stream, `streamHandler` appends
`"\nError: <message>"` to the accumulated text and returns the sanitized
result without re-raising; the final sanitize pass also applies to a
normally-ended stream. -/
theorem Request.streamHandler_error_suffix :
    (∀ (α : Type) (extract : α → Option (List Char)) (minI t0 : Nat)
        (frames : List (α × Nat)) (msg : List Char),
        (Request.streamHandlerL extract minI t0 frames (some msg)).1
          = Request.stripThinkingContentL
              ((frames.map (fun p => Request.extractedText (extract p.1))).flatten
                ++ Request.errorMarkChars ++ msg))
    ∧ (∀ (α : Type) (extract : α → Option (List Char)) (minI t0 : Nat)
        (frames : List (α × Nat)),
        (Request.streamHandlerL extract minI t0 frames none).1
          = Request.stripThinkingContentL
              ((frames.map (fun p => Request.extractedText (extract p.1))).flatten))
    ∧ (Request.streamHandlerL id 0 0
        (List.replicate 6 (some (List.replicate 10 'a'), (0 : Nat)))
        (some "boom".data))
        = (List.replicate 60 'a' ++ Request.errorMarkChars ++ "boom".data,
           [List.replicate 60 'a' ++ Request.ellipsisChars]) := by
  refine ⟨?_, ?_, by decide⟩
  · intro α extract minI t0 frames msg
    simp only [Request.streamHandlerL]
    rw [Request.streamRun_contentFull]
    simp only [List.map_map, Function.comp_def]
    rfl
  · intro α extract minI t0 frames
    simp only [Request.streamHandlerL]
    rw [Request.streamRun_contentFull]
    simp only [List.map_map, Function.comp_def]
    rfl

/-- C3 counterexample: with a positive timeout configured and a fetch that
rejects, `requestChatCompletions` never executes `clearTimeout` — the
rejection of `await fetch` propagates before the clearing statement — so
the timer is not cancelled "regardless of whether the fetch resolves or
rejects". -/
theorem Request.requestChatCompletions_no_clear_on_reject :
    Request.OrchEvent.clearTimer ∉ Request.requestChatCompletionsTrace true true := by
  decide

/-- C3 amended: when a positive timeout is configured and the fetch
resolves, the timer is cleared (after the fetch, before the response is
mapped); when the fetch rejects, the error propagates without the timer
being cleared; without a positive timeout no timer is scheduled or
cleared. -/
theorem Request.requestChatCompletions_timer_lifecycle :
    Request.requestChatCompletionsTrace true false
      = [Request.OrchEvent.scheduleTimer, Request.OrchEvent.fetchStart,
         Request.OrchEvent.clearTimer, Request.OrchEvent.mapResponse]
    ∧ Request.requestChatCompletionsTrace true true
      = [Request.OrchEvent.scheduleTimer, Request.OrchEvent.fetchStart,
         Request.OrchEvent.propagateError]
    ∧ Request.requestChatCompletionsTrace false false
      = [Request.OrchEvent.fetchStart, Request.OrchEvent.mapResponse]
    ∧ Request.requestChatCompletionsTrace false true
      = [Request.OrchEvent.fetchStart, Request.OrchEvent.propagateError] :=
  ⟨rfl, rfl, rfl, rfl⟩

/-- C4 counterexample: when the `choices` path is structurally absent from
the parsed body, the default full-content extractor short-circuits to
`undefined` instead of failing, and the mapper returns the empty answer
without any error. -/
theorem Request.fullExtractor_absent_choices_no_throw :
    Request.defaultFullContentExtractor (Request.Json.obj []) = .ok none
    ∧ (Request.mapResponseToAnswer
        { ok := true, contentType? := some "application/json".data,
          statusText := "OK".data, jsonBody := Request.Json.obj [],
          streamData := ⟨[], none⟩ } none false 0 0)
      = (.ok [], []) :=
  ⟨rfl, rfl⟩

/-- C4 amended: the default full-content extractor reads the first choice's
message content field (the mapper returns `"hi"` for the body
`{"choices":[{"message":{"content":"<think>x</think>hi"}}]}` with default
extractors); it fails (`TypeError`) exactly when a first choice exists but
its `message` field is nullish — unlike the delta extractor, which yields
no content there; absent or empty `choices` yields no content without
failing. -/
theorem Request.fullExtractor_first_choice_message :
    (Request.mapResponseToAnswer
        { ok := true, contentType? := some "application/json".data,
          statusText := "OK".data,
          jsonBody := Request.Json.obj [("choices".data, Request.Json.arr
            [Request.Json.obj [("message".data, Request.Json.obj
              [("content".data,
                Request.Json.str "<think>x</think>hi".data)])]])],
          streamData := ⟨[], none⟩ } none false 0 0)
      = (.ok "hi".data, [])
    ∧ Request.defaultFullContentExtractor
        (Request.Json.obj [("choices".data, Request.Json.arr
          [Request.Json.obj [("message".data, Request.Json.obj
            [("content".data, Request.Json.str "<think>x</think>hi".data)])]])])
      = .ok (some "<think>x</think>hi".data)
    ∧ Request.defaultFullContentExtractor
        (Request.Json.obj [("choices".data,
          Request.Json.arr [Request.Json.obj []])]) = .error ()
    ∧ Request.defaultContentExtractor
        (Request.Json.obj [("choices".data,
          Request.Json.arr [Request.Json.obj []])]) = none
    ∧ Request.defaultFullContentExtractor
        (Request.Json.obj [("choices".data, Request.Json.arr [])]) = .ok none :=
  ⟨rfl, rfl, rfl, rfl, rfl⟩

/-- C7: both classifier predicates are case-insensitive substring matches
against the content-type header value and are false when the header is
absent; `isJsonResponse` tests for `application/json`,
`isEventStreamResponse` for `application/stream+json` or
`text/event-stream`; a `text/event-stream; charset=utf-8` header classifies
as event-stream and not as JSON. -/
theorem Request.classifier_substring_match :
    (∀ (ok : Bool) (st : List Char) (body : Request.Json) (sd : Request.StreamData),
      Request.isJsonResponse ⟨ok, none, st, body, sd⟩ = false
      ∧ Request.isEventStreamResponse ⟨ok, none, st, body, sd⟩ = false)
    ∧ (∀ (ok : Bool) (ct st : List Char) (body : Request.Json)
        (sd : Request.StreamData),
      Request.isJsonResponse ⟨ok, some ct, st, body, sd⟩
        = Request.containsSeq (Request.toLowerL ct) "application/json".data
      ∧ Request.isEventStreamResponse ⟨ok, some ct, st, body, sd⟩
        = (Request.containsSeq (Request.toLowerL ct) "application/stream+json".data
            || Request.containsSeq (Request.toLowerL ct) "text/event-stream".data))
    ∧ Request.isEventStreamResponse
        ⟨true, some "text/event-stream; charset=utf-8".data, [], .null, ⟨[], none⟩⟩
      = true
    ∧ Request.isJsonResponse
        ⟨true, some "text/event-stream; charset=utf-8".data, [], .null, ⟨[], none⟩⟩
      = false
    ∧ Request.isEventStreamResponse
        ⟨true, some "Text/Event-Stream; Charset=UTF-8".data, [], .null, ⟨[], none⟩⟩
      = true
    ∧ Request.isJsonResponse
        ⟨true, some "APPLICATION/JSON; charset=utf-8".data, [], .null, ⟨[], none⟩⟩
      = true :=
  ⟨fun _ _ _ _ => ⟨rfl, rfl⟩, fun _ _ _ _ _ => ⟨rfl, rfl⟩,
   by decide, by decide, by decide, by decide⟩

/-- C8: extractor defaulting is idempotent, always returns all four
functions, keeps every caller-supplied function unchanged, and replaces
only absent ones by the OpenAI-compatible defaults. -/
theorem Request.fixOptions_idempotent_defaults :
    (∀ o : Option Request.SseChatCompatibleOptions,
      Request.fixOpenAICompatibleOptions (some (Request.fixOpenAICompatibleOptions o))
        = Request.fixOpenAICompatibleOptions o)
    ∧ (∀ o : Option Request.SseChatCompatibleOptions,
      (Request.fixOpenAICompatibleOptions o).streamBuilder.isSome = true
      ∧ (Request.fixOpenAICompatibleOptions o).contentExtractor.isSome = true
      ∧ (Request.fixOpenAICompatibleOptions o).fullContentExtractor.isSome = true
      ∧ (Request.fixOpenAICompatibleOptions o).errorExtractor.isSome = true)
    ∧ (∀ (o : Request.SseChatCompatibleOptions) f, o.streamBuilder = some f →
        (Request.fixOpenAICompatibleOptions (some o)).streamBuilder = some f)
    ∧ (∀ (o : Request.SseChatCompatibleOptions) f, o.contentExtractor = some f →
        (Request.fixOpenAICompatibleOptions (some o)).contentExtractor = some f)
    ∧ (∀ (o : Request.SseChatCompatibleOptions) f, o.fullContentExtractor = some f →
        (Request.fixOpenAICompatibleOptions (some o)).fullContentExtractor = some f)
    ∧ (∀ (o : Request.SseChatCompatibleOptions) f, o.errorExtractor = some f →
        (Request.fixOpenAICompatibleOptions (some o)).errorExtractor = some f)
    ∧ (∀ o : Request.SseChatCompatibleOptions, o.streamBuilder = none →
        (Request.fixOpenAICompatibleOptions (some o)).streamBuilder
          = some Request.defaultStreamBuilder)
    ∧ (∀ o : Request.SseChatCompatibleOptions, o.contentExtractor = none →
        (Request.fixOpenAICompatibleOptions (some o)).contentExtractor
          = some Request.defaultContentExtractor)
    ∧ (∀ o : Request.SseChatCompatibleOptions, o.fullContentExtractor = none →
        (Request.fixOpenAICompatibleOptions (some o)).fullContentExtractor
          = some Request.defaultFullContentExtractor)
    ∧ (∀ o : Request.SseChatCompatibleOptions, o.errorExtractor = none →
        (Request.fixOpenAICompatibleOptions (some o)).errorExtractor
          = some Request.defaultErrorExtractor) := by
  refine ⟨fun o => rfl, fun o => ⟨rfl, rfl, rfl, rfl⟩, ?_, ?_, ?_, ?_, ?_, ?_, ?_, ?_⟩ <;>
    first
      | (intro o f h; simp [Request.fixOpenAICompatibleOptions, h])
      | (intro o h; simp [Request.fixOpenAICompatibleOptions, h])

/-- Witness for C8 at concrete option sets. -/
theorem Request.fixOptions_idempotent_defaults_witness :
    (Request.fixOpenAICompatibleOptions
        (some ⟨none, none, none, some Request.defaultErrorExtractor⟩)).errorExtractor
      = some Request.defaultErrorExtractor
    ∧ (Request.fixOpenAICompatibleOptions
        (some ⟨some Request.defaultStreamBuilder, none, none, none⟩)).streamBuilder
      = some Request.defaultStreamBuilder
    ∧ (Request.fixOpenAICompatibleOptions
        (some ⟨none, none, none, none⟩)).contentExtractor
      = some Request.defaultContentExtractor :=
  ⟨Request.fixOptions_idempotent_defaults.2.2.2.2.2.1
      ⟨none, none, none, some Request.defaultErrorExtractor⟩
      Request.defaultErrorExtractor rfl,
   Request.fixOptions_idempotent_defaults.2.2.1
      ⟨some Request.defaultStreamBuilder, none, none, none⟩
      Request.defaultStreamBuilder rfl,
   Request.fixOptions_idempotent_defaults.2.2.2.2.2.2.2.1
      ⟨none, none, none, none⟩ rfl⟩

/-- C6: on the non-streaming path, a non-JSON response fails with the
response's statusText; a JSON response with a falsy parsed body fails with
"Empty response"; and a non-empty message from the effective error
extractor fails with exactly that message, before the full-content
extractor is ever applied (even a full-content extractor that always
throws is never reached). -/
theorem Request.mapResponse_json_error_precedence :
    ∀ (resp : Request.HttpResponse)
      (options : Option Request.SseChatCompatibleOptions) (minI t0 : Nat),
      (Request.isJsonResponse resp = false →
        Request.mapResponseToAnswer resp options false minI t0
          = (.error (.requestError resp.statusText), []))
      ∧ (Request.isJsonResponse resp = true →
         Request.jFalsy resp.jsonBody = true →
        Request.mapResponseToAnswer resp options false minI t0
          = (.error (.requestError "Empty response".data), []))
      ∧ (∀ m : List Char, Request.isJsonResponse resp = true →
          Request.jFalsy resp.jsonBody = false →
          ((Request.fixOpenAICompatibleOptions options).errorExtractor.getD
              Request.defaultErrorExtractor) resp.jsonBody = some m →
          m ≠ [] →
          Request.mapResponseToAnswer resp options false minI t0
            = (.error (.requestError m), []))
      ∧ (∀ m : List Char, Request.isJsonResponse resp = true →
          Request.jFalsy resp.jsonBody = false →
          Request.defaultErrorExtractor resp.jsonBody = some m →
          m ≠ [] →
          Request.mapResponseToAnswer resp
              (some { streamBuilder := none, contentExtractor := none,
                      fullContentExtractor := some (fun _ => .error ()),
                      errorExtractor := none }) false minI t0
            = (.error (.requestError m), [])) := by
  intro resp options minI t0
  refine ⟨?_, ?_, ?_, ?_⟩
  · intro hj
    simp [Request.mapResponseToAnswer, hj]
  · intro hj hf
    simp [Request.mapResponseToAnswer, hj, hf]
  · intro m hj hf he hm
    have hm' : m.isEmpty = false := by
      cases m with
      | nil => exact absurd rfl hm
      | cons a as => rfl
    simp [Request.mapResponseToAnswer, hj, hf, he, hm']
  · intro m hj hf he hm
    have hm' : m.isEmpty = false := by
      cases m with
      | nil => exact absurd rfl hm
      | cons a as => rfl
    simp [Request.mapResponseToAnswer, Request.fixOpenAICompatibleOptions,
      hj, hf, he, hm']

/-- Witness for C6 at concrete responses: a non-JSON body (fails with the
statusText "I am a teapot"), a JSON null body (fails with "Empty
response"), and a JSON body carrying `{"error":{"message":"bad key"}}`
(fails with "bad key" although the supplied full-content extractor would
throw). -/
theorem Request.mapResponse_json_error_precedence_witness :
    Request.mapResponseToAnswer
        { ok := true, contentType? := some "text/plain".data,
          statusText := "I am a teapot".data, jsonBody := .null,
          streamData := ⟨[], none⟩ } none false 0 0
      = (.error (.requestError "I am a teapot".data), [])
    ∧ Request.mapResponseToAnswer
        { ok := true, contentType? := some "application/json".data,
          statusText := "OK".data, jsonBody := .null,
          streamData := ⟨[], none⟩ } none false 0 0
      = (.error (.requestError "Empty response".data), [])
    ∧ Request.mapResponseToAnswer
        { ok := true, contentType? := some "application/json".data,
          statusText := "OK".data,
          jsonBody := Request.Json.obj [("error".data,
            Request.Json.obj [("message".data, Request.Json.str "bad key".data)])],
          streamData := ⟨[], none⟩ }
        (some { streamBuilder := none, contentExtractor := none,
                fullContentExtractor := some (fun _ => .error ()),
                errorExtractor := none }) false 0 0
      = (.error (.requestError "bad key".data), []) :=
  ⟨(Request.mapResponse_json_error_precedence _ none 0 0).1 (by decide),
   (Request.mapResponse_json_error_precedence _ none 0 0).2.1 (by decide) rfl,
   (Request.mapResponse_json_error_precedence _ none 0 0).2.2.2 "bad key".data
     (by decide) rfl rfl (by decide)⟩

/-- C10 counterexample: a response whose content-type contains both
`text/event-stream` and `application/json` classifies as an event stream,
yet with `ok = false` and a sink supplied the call takes the JSON path and
— far from failing with the statusText — returns a successful answer. -/
theorem Request.eventStream_notOk_not_statusText :
    Request.isEventStreamResponse
        { ok := false,
          contentType? := some "text/event-stream, application/json".data,
          statusText := "Bad Gateway".data,
          jsonBody := Request.Json.obj [("choices".data, Request.Json.arr
            [Request.Json.obj [("message".data, Request.Json.obj
              [("content".data, Request.Json.str "hi".data)])]])],
          streamData := ⟨[], none⟩ } = true
    ∧ Request.mapResponseToAnswer
        { ok := false,
          contentType? := some "text/event-stream, application/json".data,
          statusText := "Bad Gateway".data,
          jsonBody := Request.Json.obj [("choices".data, Request.Json.arr
            [Request.Json.obj [("message".data, Request.Json.obj
              [("content".data, Request.Json.str "hi".data)])]])],
          streamData := ⟨[], none⟩ } none true 0 0
      = (.ok "hi".data, []) :=
  ⟨rfl, rfl⟩

/-- C10 amended: for every event-stream-classified response with `ok =
false`, the streaming path is not taken and the sink is never invoked,
even when one is supplied; if additionally the content-type does not
contain `application/json`, the call fails with the response's
statusText. -/
theorem Request.mapResponse_notOk_skips_stream :
    ∀ (resp : Request.HttpResponse)
      (options : Option Request.SseChatCompatibleOptions)
      (hasOnStream : Bool) (minI t0 : Nat),
      resp.ok = false →
      Request.isEventStreamResponse resp = true →
      ((Request.mapResponseToAnswer resp options hasOnStream minI t0).2 = []
       ∧ (Request.isJsonResponse resp = false →
          Request.mapResponseToAnswer resp options hasOnStream minI t0
            = (.error (.requestError resp.statusText), []))) := by
  intro resp options hasOnStream minI t0 hok hev
  constructor
  · simp only [Request.mapResponseToAnswer, hok, Bool.and_false, Bool.false_and,
      Bool.and_self, Bool.false_eq_true, if_false]
    split
    · rfl
    · split
      · rfl
      · split
        · split
          · rfl
          · split <;> rfl
        · split <;> rfl
  · intro hj
    simp [Request.mapResponseToAnswer, hok, hj]

/-- Witness for C10 at a concrete failed event-stream response. -/
theorem Request.mapResponse_notOk_skips_stream_witness :
    (Request.mapResponseToAnswer
        { ok := false, contentType? := some "text/event-stream".data,
          statusText := "Bad Gateway".data, jsonBody := .null,
          streamData := ⟨[], none⟩ } none true 0 0).2 = []
    ∧ Request.mapResponseToAnswer
        { ok := false, contentType? := some "text/event-stream".data,
          statusText := "Bad Gateway".data, jsonBody := .null,
          streamData := ⟨[], none⟩ } none true 0 0
      = (.error (.requestError "Bad Gateway".data), []) :=
  ⟨(Request.mapResponse_notOk_skips_stream _ none true 0 0 rfl (by decide)).1,
   (Request.mapResponse_notOk_skips_stream _ none true 0 0 rfl (by decide)).2
     (by decide)⟩
